import Mathlib

/-!
Shallow embedding of the `node-red-contrib-alexa-iot` hub and device nodes
(`src/nodes/alexa-iot-hub.js`, first registered module, and
`src/nodes/alexa-iot-device.js`, first registered module), together with
theorems settling the frozen claims about the specification.

JSON / JavaScript values are modelled by the inductive `JsValue`; machine
floats are modelled by exact rationals (the few arithmetic operations the
code performs — division by 254, multiplication by 100, `Math.round` — are
exact-rational computations whose double-precision evaluation agrees for
the integer inputs in range, since none of them lands within 1/508 of a
rounding tie), with an explicit `jnan` constructor standing for `NaN`.
-/

/-- JavaScript/JSON value universe used by the handlers. Arrays of numbers
(`jarrN`) and one level of string-keyed objects (`jobj`) are all the shapes
the embedded code constructs or inspects. -/
inductive JsValue where
  | jundefined
  | jnull
  | jnan
  | jbool (b : Bool)
  | jnum (q : ℚ)
  | jstr (s : String)
  | jarrN (xs : List ℚ)
  | jobj (fields : List (String × JsValue))

/-- JavaScript truthiness for the values of `JsValue`; `undefined`, `null`,
`NaN`, `false`, `0` and `""` are falsy, arrays and objects are truthy. -/
def JsValue.truthy : JsValue → Bool
  | .jundefined => false
  | .jnull => false
  | .jnan => false
  | .jbool b => b
  | .jnum q => q != 0
  | .jstr s => s != ""
  | .jarrN _ => true
  | .jobj _ => true

/-- Result universe of the JavaScript `Number(...)` coercion. -/
inductive NumV where
  | nan
  | num (q : ℚ)

/-- The numeric value of a decimal digit character. -/
def digitVal (c : Char) : Option ℕ :=
  if c.isDigit then some (c.toNat - 48) else none

/-- A digit string read as a natural number; the empty list reads as `0`,
any non-digit yields `none`. -/
def digitsToNat (cs : List Char) : Option ℕ :=
  cs.foldl (fun acc c =>
    match acc, digitVal c with
    | some n, some d => some (10 * n + d)
    | _, _ => none) (some 0)

/-- An unsigned decimal literal `digits [. digits]` (at least one digit in
total) read as an exact rational; anything else yields `none`. -/
def decToRat (cs : List Char) : Option ℚ :=
  let ip := cs.takeWhile (fun c => c != '.')
  match cs.dropWhile (fun c => c != '.') with
  | [] =>
    if ip.isEmpty then none else (digitsToNat ip).map (fun n => (n : ℚ))
  | _ :: frac =>
    if frac.contains '.' || (ip.isEmpty && frac.isEmpty) then none
    else
      match digitsToNat ip, digitsToNat frac with
      | some i, some f => some ((i : ℚ) + (f : ℚ) / (10 : ℚ) ^ frac.length)
      | _, _ => none

/-- JavaScript string-to-number conversion for plain decimal literals: the
empty string is `0`, an optional sign followed by a decimal literal parses
exactly; exponent forms, hexadecimal literals, `Infinity` and surrounding
whitespace are not modelled and read as `NaN` (`none`). -/
def jsParseNumber (s : String) : Option ℚ :=
  match s.data with
  | [] => some 0
  | '-' :: rest => (decToRat rest).map (fun q => -q)
  | '+' :: rest => decToRat rest
  | cs => decToRat cs

/-- JavaScript `Number(v)` coercion: `undefined` and `NaN` give `NaN`,
`null` gives `0`, booleans give `0`/`1`, strings parse as decimal literals
(via `jsParseNumber`), an array converts through its string form — the
empty array is `0`, a one-element numeric array is its element, longer
arrays are `NaN` — and plain objects are `NaN`. -/
def toNum : JsValue → NumV
  | .jundefined => .nan
  | .jnull => .num 0
  | .jnan => .nan
  | .jbool b => .num (if b then 1 else 0)
  | .jnum q => .num q
  | .jstr s =>
    match jsParseNumber s with
    | some q => .num q
    | none => .nan
  | .jarrN [] => .num 0
  | .jarrN [x] => .num x
  | .jarrN _ => .nan
  | .jobj _ => .nan

/-- JavaScript `Math.round` on an exact rational: round half toward
positive infinity. -/
def jsRound (q : ℚ) : ℤ := ⌊q + 1/2⌋

/-- JavaScript `x || d` for an optional number `x` (used for
`body.bri || 254`): `undefined` and `0` are falsy and select the default. -/
def jsOrQ (o : Option ℚ) (d : ℚ) : ℚ :=
  match o with
  | some q => if q = 0 then d else q
  | none => d

/-- JavaScript `s || d` for an optional string `s` (used for
`n.endpointId || n.id`): `undefined` and `""` are falsy and select the
default. -/
def jsOrStr (o : Option String) (d : String) : String :=
  match o with
  | some s => if s = "" then d else s
  | none => d

/-- Truthiness normalisation of an optional string: `some ""` is falsy in
JavaScript, so it collapses to `none`. -/
def jsStrOpt (o : Option String) : Option String :=
  match o with
  | some s => if s = "" then none else some s
  | none => none

/-- A Node-RED node record as seen by `RED.nodes.eachNode` for the
`alexa-iot-device` type: configuration fields of
`src/nodes/alexa-iot-device.js` plus the optional `endpointId` the hub
consults. `ntype` is the record's `type` field; `hub` is the id of the
configured hub node. -/
structure DeviceConfig where
  id : String
  ntype : String
  hub : String
  name : String
  endpointId : Option String := none
  topic : Option String := none
  targetNode : Option String := none

/-- The synthetic unique id of a device: `n.endpointId || n.id` with every
dash replaced by a colon (a global regex replace in the source), then
`'-00'` appended (src/nodes/alexa-iot-hub.js:108). -/
def uniqueidOf (n : DeviceConfig) : String :=
  String.mk ((jsOrStr n.endpointId n.id).data.map
    (fun c => if c = '-' then ':' else c)) ++ "-00"

/-- A semantic event delivered to a device sink via
`deviceNode.receive({topic, payload})`. -/
structure Event where
  topic : String
  payload : JsValue

/-- The Hue PUT body, `any subset of {on, bri, hue, sat, xy, ct}`
(JSON booleans and numbers; src/nodes/alexa-iot-hub.js:389). -/
structure HueBody where
  «on» : Option Bool := none
  bri : Option ℚ := none
  hue : Option ℚ := none
  sat : Option ℚ := none
  xy : Option (List ℚ) := none
  ct : Option ℚ := none

/-- The `topic`/`payload` assignment chain of the Hue state PUT handler
(src/nodes/alexa-iot-hub.js:411-427), first match wins:
`on !== undefined`, then `bri !== undefined`, then
`hue !== undefined && sat !== undefined`, then truthy `xy`
(arrays are always truthy), then truthy `ct` (`ct: 0` is falsy).
Returns `none` when no branch assigns (`topic`/`payload` stay undefined). -/
def hueStateToEvent (body : HueBody) : Option (String × JsValue) :=
  match body.«on» with
  | some b => some ("power", .jstr (if b then "ON" else "OFF"))
  | none =>
    match body.bri with
    | some q => some ("brightness", .jnum ((jsRound (q / 254 * 100) : ℤ) : ℚ))
    | none =>
      match body.hue, body.sat with
      | some h, some s =>
        some ("color", .jobj [("hue", .jnum h), ("saturation", .jnum (s / 254)),
          ("brightness", .jnum (jsOrQ body.bri 254 / 254))])
      | _, _ =>
        match body.xy with
        | some xs =>
          some ("color", .jobj [("xy", .jarrN xs),
            ("brightness", .jnum (jsOrQ body.bri 254 / 254))])
        | none =>
          match body.ct with
          | some c =>
            if c = 0 then none
            else some ("color", .jobj [("ct", .jnum c),
              ("brightness", .jnum (jsOrQ body.bri 254 / 254))])
          | none => none

/-- One device-matching step of the `RED.nodes.eachNode` loop of the state
PUT handler (src/nodes/alexa-iot-hub.js:395-403): a node matches when it is
an `alexa-iot-device` bound to this hub and the URL token strictly equals
its uniqueid, its raw `endpointId`, or its raw `id`. Later matches
overwrite earlier ones. -/
def resolveStep (hubId tok : String) (acc : Option DeviceConfig) (n : DeviceConfig) :
    Option DeviceConfig :=
  if n.ntype == "alexa-iot-device" && n.hub == hubId &&
      (tok == uniqueidOf n || n.endpointId == some tok || tok == n.id)
    then some n else acc

/-- Device resolution of the Hue state PUT handler: fold `resolveStep` over
the registry, starting from `null` (src/nodes/alexa-iot-hub.js:392-403). -/
def resolveDevice (reg : List DeviceConfig) (hubId tok : String) :
    Option DeviceConfig :=
  reg.foldl (resolveStep hubId tok) none

/-- The context property reported in a successful Alexa response
(src/nodes/alexa-iot-hub.js:634-655): the property name is selected by the
directive namespace, the `value` is the dispatched payload, and
`uncertaintyInMilliseconds` is `0`. -/
structure ContextProperty where
  propNamespace : String
  propName : String
  value : JsValue
  timeOfSample : String
  uncertaintyInMilliseconds : ℤ

/-- One discovered Alexa endpoint (src/nodes/alexa-iot-hub.js:478-521).
The four fixed capability entries are identical for every device and are
not re-modelled field by field. -/
structure AlexaEndpoint where
  endpointId : String
  friendlyName : String
  description : String
  manufacturerName : String
  displayCategories : List String

/-- A Hue "light object" as built by `generateDeviceList`
(src/nodes/alexa-iot-hub.js:109-150); the constant `state`, `capabilities`
and `config` sub-objects are fixed literals in the source and are kept as
defaulted fields here, `lastinstall` is `new Date().toISOString()` passed
in as `now`. -/
structure HueLight where
  name : String
  uniqueid : String
  lastinstall : String
  stateOn : Bool := false
  stateBri : ℚ := 254
  stateHue : ℚ := 0
  stateSat : ℚ := 254
  stateCt : ℚ := 199
  typeName : String := "Extended color light"
  modelid : String := "LCT007"
  manufacturername : String := "Philips"
  productname : String := "Hue color lamp"
  swversion : String := "5.105.0.21169"

/-- The JSON bodies the hub's HTTP handlers produce, in structured form.
`hueSuccess es` stands for the array `[ ... ]` with one
`{"success": {k: v}}` element per pair in `es`; `hueError` stands for
`[{"error": {"type": t, "address": a, "description": d}}]`. -/
inductive RespBody where
  | hueSuccess (entries : List (String × JsValue))
  | hueError (etype : ℤ) (address : String) (description : String)
  | lightsJson (lights : List (String × HueLight))
  | alexaError (etype : String) (message : String) (messageId : String)
      (correlationToken : Option String)
  | alexaResponse (endpointId : String) (messageId : String)
      (correlationToken : Option String) (prop : ContextProperty)
  | discoverResponse (messageId : String) (endpoints : List AlexaEndpoint)

/-- An HTTP response: status code and structured JSON body. -/
structure HttpResponse where
  status : ℕ
  body : RespBody

/-- JavaScript object insertion `lights[k] = v`: if `k` is already a key the
entry is overwritten in place, otherwise the entry is appended. (None of the
keys built here is an integer-index string, so JavaScript's own key ordering
is plain insertion order.) -/
def objSet (acc : List (String × HueLight)) (k : String) (v : HueLight) :
    List (String × HueLight) :=
  match acc with
  | [] => [(k, v)]
  | (k', v') :: rest =>
    if k' = k then (k, v) :: rest else (k', v') :: objSet rest k v

/-- The light object assigned to `lights[uniqueid]` for one device
(src/nodes/alexa-iot-hub.js:109-150). -/
def mkLight (n : DeviceConfig) (now : String) : HueLight :=
  { name := n.name, uniqueid := uniqueidOf n, lastinstall := now }

/-- The predicate of the `eachNode` filter used throughout the hub:
`n.type === 'alexa-iot-device' && RED.nodes.getNode(n.hub) === node`,
with hub-node identity modelled by hub-id equality. -/
def isBound (hubId : String) (n : DeviceConfig) : Bool :=
  n.ntype == "alexa-iot-device" && n.hub == hubId

/-- The devices bound to a hub, in host iteration order. -/
def boundDevices (reg : List DeviceConfig) (hubId : String) : List DeviceConfig :=
  reg.filter (isBound hubId)

/-- One `eachNode` step of `generateDeviceList`
(src/nodes/alexa-iot-hub.js:106-153): bound devices are written into the
`lights` object under their uniqueid; the 1-based `index` counter is
incremented but never otherwise used (mirrored faithfully). -/
def genStep (hubId now : String) (acc : List (String × HueLight) × ℕ)
    (n : DeviceConfig) : List (String × HueLight) × ℕ :=
  if isBound hubId n then (objSet acc.1 (uniqueidOf n) (mkLight n now), acc.2 + 1)
  else acc

/-- `generateDeviceList` (src/nodes/alexa-iot-hub.js:103-155): the `lights`
object, as an insertion-ordered association list. -/
def generateDeviceList (reg : List DeviceConfig) (hubId now : String) :
    List (String × HueLight) :=
  (reg.foldl (genStep hubId now) ([], 1)).1

/-- The `GET /api/:userId/lights` handler (src/nodes/alexa-iot-hub.js:349-355):
responds 200 with the generated device list. -/
def hueGetLights (reg : List DeviceConfig) (hubId now : String) : HttpResponse :=
  { status := 200, body := .lightsJson (generateDeviceList reg hubId now) }

/-- The `PUT /api/:userId/lights/:deviceId/state` handler
(src/nodes/alexa-iot-hub.js:386-437). Returns the HTTP response together
with the list of semantic events delivered to the resolved device sink.
The gate before dispatch is the source's `if (topic && payload)`: an
assigned topic string is truthy and the payload must be truthy, so a
brightness payload of `0` falls into the `type: 6` error branch. -/
def huePutState (reg : List DeviceConfig) (hubId tok : String) (body : HueBody) :
    HttpResponse × List Event :=
  match resolveDevice reg hubId tok with
  | none =>
    ({ status := 404,
       body := .hueError 3 ("/lights/" ++ tok)
         ("Device " ++ tok ++ " not found") }, [])
  | some _ =>
    match hueStateToEvent body with
    | some (t, p) =>
      if t != "" && p.truthy then
        ({ status := 200,
           body := .hueSuccess [("/lights/" ++ tok ++ "/state/" ++ t, p)] },
         [⟨t, p⟩])
      else
        ({ status := 400,
           body := .hueError 6 ("/lights/" ++ tok ++ "/state")
             "Invalid or missing parameters" }, [])
    | none =>
      ({ status := 400,
         body := .hueError 6 ("/lights/" ++ tok ++ "/state")
           "Invalid or missing parameters" }, [])

/-- An Alexa directive header (src/nodes/alexa-iot-hub.js:471). `nspace` is
the `namespace` field (a Lean keyword). A missing or falsy `namespace` is
modelled by the empty string. -/
structure AlexaHeader where
  nspace : String
  hname : String
  messageId : String
  correlationToken : Option String := none

/-- An Alexa directive envelope: `{header, endpoint?, payload?}`, where
`endpoint` is collapsed to its only consulted field `endpointId`. -/
structure AlexaDirective where
  header : AlexaHeader
  endpoint : Option String := none
  payload : Option JsValue := none

/-- Exceptions of the modelled JavaScript fragments. -/
inductive JsErr where
  | typeError
  | referenceError

/-- JavaScript property read `base.k` for an optional base value: reading a
property of `undefined` or `null` throws a TypeError; reading a missing key
of an object yields `undefined`; property reads on other primitives yield
`undefined`. -/
def getField (base : Option JsValue) (k : String) : Except JsErr JsValue :=
  match base with
  | none => .error .typeError
  | some .jundefined => .error .typeError
  | some .jnull => .error .typeError
  | some (.jobj fs) => .ok ((fs.lookup k).getD .jundefined)
  | some _ => .ok .jundefined

/-- The directive → `topic`/`payload` mapping of the `/alexa` handler
(src/nodes/alexa-iot-hub.js:588-618). `.ok none` is the fall-through to the
unsupported-directive error; reading `directive.payload.brightness` (etc.)
throws when `directive.payload` is absent. -/
def directiveToEvent (d : AlexaDirective) : Except JsErr (Option (String × JsValue)) :=
  if d.header.nspace == "Alexa.PowerController" &&
      (d.header.hname == "TurnOn" || d.header.hname == "TurnOff") then
    .ok (some ("power", .jstr (if d.header.hname == "TurnOn" then "ON" else "OFF")))
  else if d.header.nspace == "Alexa.BrightnessController" &&
      d.header.hname == "SetBrightness" then
    (getField d.payload "brightness").map (fun v => some ("brightness", v))
  else if d.header.nspace == "Alexa.BrightnessController" &&
      d.header.hname == "AdjustBrightness" then
    (getField d.payload "brightnessDelta").map (fun v => some ("brightness", v))
  else if d.header.nspace == "Alexa.ColorController" &&
      d.header.hname == "SetColor" then
    (getField d.payload "color").map (fun v => some ("color", v))
  else
    .ok none

/-- The context property of a successful `/alexa` response
(src/nodes/alexa-iot-hub.js:634-655): a conditional chain on the directive
namespace; every branch reports `value: payload` and
`uncertaintyInMilliseconds: 0`. -/
def mkContextProp (nspace : String) (payload : JsValue) (now : String) :
    ContextProperty :=
  if nspace == "Alexa.PowerController" then
    ⟨"Alexa.PowerController", "powerState", payload, now, 0⟩
  else if nspace == "Alexa.BrightnessController" then
    ⟨"Alexa.BrightnessController", "brightness", payload, now, 0⟩
  else
    ⟨"Alexa.ColorController", "color", payload, now, 0⟩

/-- The endpoint list of the `Alexa.Discovery` branch
(src/nodes/alexa-iot-hub.js:475-523): one endpoint per bound device;
`friendlyName` is the raw configured `n.name` (no sanitisation is applied
in this handler, although `sanitize-html` is imported by the module). -/
def discoverEndpoints (reg : List DeviceConfig) (hubId : String) :
    List AlexaEndpoint :=
  (boundDevices reg hubId).map (fun n =>
    { endpointId := jsOrStr n.endpointId n.id,
      friendlyName := n.name,
      description := "Node-RED " ++ n.name,
      manufacturerName := "Node-RED",
      displayCategories := ["LIGHT", "SWITCH"] })

/-- Endpoint resolution of the `/alexa` handler
(src/nodes/alexa-iot-hub.js:562-567): a bound device whose
`n.endpointId || n.id` strictly equals the directive's `endpointId`;
later matches overwrite earlier ones. -/
def resolveByEndpoint (reg : List DeviceConfig) (hubId eid : String) :
    Option DeviceConfig :=
  reg.foldl (fun acc n =>
    if n.ntype == "alexa-iot-device" && jsOrStr n.endpointId n.id == eid &&
        n.hub == hubId
      then some n else acc) none

/-- `messageId || 'unknown'` as used in the pre-parse error responses. -/
def msgIdOr (s : String) : String := if s = "" then "unknown" else s

/-- The body of the `try` block of the `POST /alexa` handler
(src/nodes/alexa-iot-hub.js:451-661): validation, discovery, endpoint
resolution, directive mapping, dispatch and response construction, in
source order. `req = none` models a request whose `directive` (or its
`header`) is missing; a falsy `namespace` is the empty string. The event
list records the payload delivered via `deviceNode.receive`. -/
def alexaTry (reg : List DeviceConfig) (hubId now : String)
    (req : Option AlexaDirective) : Except JsErr (HttpResponse × List Event) :=
  match req with
  | none =>
    .ok ({ status := 400,
           body := .alexaError "INVALID_DIRECTIVE" "Missing or invalid directive"
             "unknown" none }, [])
  | some d =>
    if d.header.nspace == "" then
      .ok ({ status := 400,
             body := .alexaError "INVALID_DIRECTIVE" "Missing or invalid directive"
               (msgIdOr d.header.messageId) none }, [])
    else if d.header.nspace == "Alexa.Discovery" && d.header.hname == "Discover" then
      .ok ({ status := 200,
             body := .discoverResponse d.header.messageId
               (discoverEndpoints reg hubId) }, [])
    else
      match jsStrOpt d.endpoint with
      | none =>
        .ok ({ status := 400,
               body := .alexaError "INVALID_DIRECTIVE" "Missing endpointId"
                 d.header.messageId d.header.correlationToken }, [])
      | some eid =>
        match resolveByEndpoint reg hubId eid with
        | none =>
          .ok ({ status := 404,
                 body := .alexaError "ENDPOINT_UNREACHABLE"
                   ("Device " ++ eid ++ " not found")
                   d.header.messageId d.header.correlationToken }, [])
        | some _ =>
          match directiveToEvent d with
          | .error e => .error e
          | .ok none =>
            .ok ({ status := 400,
                   body := .alexaError "INVALID_DIRECTIVE"
                     ("Unsupported directive: " ++ d.header.nspace ++ "." ++
                       d.header.hname)
                     d.header.messageId d.header.correlationToken }, [])
          | .ok (some (t, p)) =>
            .ok ({ status := 200,
                   body := .alexaResponse eid d.header.messageId
                     d.header.correlationToken
                     (mkContextProp d.header.nspace p now) }, [⟨t, p⟩])

/-- The full `POST /alexa` handler (src/nodes/alexa-iot-hub.js:450-679).
The `catch` clause (lines 662-678) reads `directive?.header?.messageId`,
but `directive` is a `const` declared inside the `try` block (line 452) and
is not in scope in the `catch` clause; under strict-mode JavaScript,
evaluating that identifier throws a ReferenceError before the 500 response
is built, so any exception from the `try` body escapes the handler as a
ReferenceError instead of producing a response. -/
def alexaPost (reg : List DeviceConfig) (hubId now : String)
    (req : Option AlexaDirective) : Except JsErr (HttpResponse × List Event) :=
  match alexaTry reg hubId now req with
  | .ok r => .ok r
  | .error _ => .error .referenceError

/-- An input message to the device node (`msg.topic`, `msg.payload`). -/
structure DeviceMsg where
  topic : String
  payload : JsValue

/-- The message emitted by the device node: topic, processed payload, and
the `device` field set to the node's name. -/
structure DeviceOut where
  topic : String
  payload : JsValue
  device : String

/-- The observable outcome of one device-node input: the message passed to
`send` (if any) and the message forwarded to the configured target node via
`target.receive` (if any). -/
structure DeviceResult where
  sent : Option DeviceOut
  forwarded : Option DeviceOut

/-- The `payload === true || payload === 'ON'` test of the power branch
(src/nodes/alexa-iot-device.js:65). -/
def powerIsOn : JsValue → Bool
  | .jbool b => b
  | .jstr s => s == "ON"
  | _ => false

/-- The brightness branch `Math.max(0, Math.min(100, Number(payload)))`
(src/nodes/alexa-iot-device.js:68); min/max with `NaN` yields `NaN`. -/
def clampBrightness (p : JsValue) : JsValue :=
  match toNum p with
  | .num q => .jnum (max 0 (min 100 q))
  | .nan => .jnan

/-- The range check the brightness claim asserts of an emitted payload: a
numeric value within `[0,100]`; any non-number — in particular `NaN` —
fails every comparison, as in JavaScript. -/
def withinBrightnessRange : JsValue → Bool
  | .jnum q => decide (0 ≤ q ∧ q ≤ 100)
  | _ => false

/-- The device node's `input` handler (src/nodes/alexa-iot-device.js:52-110).
`hubOk` is the result of `validateHub()` (hub configured, deployed and of
the right type); `targetOk` models `RED.nodes.getNode(targetNode)` finding a
live node. An unsupported topic with no custom topic configured warns and
returns without sending; otherwise the (possibly processed) payload is sent
with `output.topic = node.topic || inputTopic` and `output.device = name`,
and forwarded to the target when `output.payload !== null` and a truthy
`targetNode` resolves. -/
def deviceOnInput (cfg : DeviceConfig) (hubOk targetOk : Bool)
    (msg : DeviceMsg) : DeviceResult :=
  if !hubOk then ⟨none, none⟩
  else
    let processed : Option JsValue :=
      if msg.topic == "power" then
        some (.jstr (if powerIsOn msg.payload then "ON" else "OFF"))
      else if msg.topic == "brightness" then
        some (clampBrightness msg.payload)
      else if msg.topic == "color" then
        some msg.payload
      else
        match jsStrOpt cfg.topic with
        | none => none
        | some _ => some msg.payload
    match processed with
    | none => ⟨none, none⟩
    | some p =>
      let out : DeviceOut :=
        ⟨jsOrStr (jsStrOpt cfg.topic) msg.topic, p, cfg.name⟩
      ⟨some out,
       if (match p with | .jnull => false | _ => true) &&
           (jsStrOpt cfg.targetNode).isSome && targetOk
         then some out else none⟩

/-- Extracts the success entries of a Hue response body (empty for any other
body shape). -/
def RespBody.successEntries : RespBody → List (String × JsValue)
  | .hueSuccess es => es
  | _ => []

/-- A single registered device: an `alexa-iot-device` named `Lamp` with id
`d1`, bound to hub `hub1`, with no `endpointId` and no custom topic. -/
def d1cfg : DeviceConfig :=
  { id := "d1", ntype := "alexa-iot-device", hub := "hub1", name := "Lamp" }

/-- A registry holding exactly the device `d1cfg`. -/
def reg1 : List DeviceConfig := [d1cfg]

/-- Hue PUT body `{"bri": 300, "hue": 100, "sat": 200}`. -/
def body6 : HueBody := { bri := some 300, hue := some 100, sat := some 200 }

/-- Hue PUT body `{"bri": 128}`. -/
def body6w : HueBody := { bri := some 128 }

/-- Hue PUT body `{"on": true, "bri": 128}`. -/
def body7 : HueBody := { «on» := some true, bri := some 128 }

/-- A registry with one bound device whose configured name contains HTML
markup. -/
def reg8 : List DeviceConfig :=
  [{ id := "d8", ntype := "alexa-iot-device", hub := "hub1", name := "<b>Lamp</b>" }]

/-- An `Alexa.Discovery.Discover` directive. -/
def discover8 : AlexaDirective :=
  { header := { nspace := "Alexa.Discovery", hname := "Discover", messageId := "m1" } }

/-- A `SetBrightness` directive addressed to `d1` whose `payload` is absent,
so that reading `directive.payload.brightness` throws. -/
def sbNoPayload : AlexaDirective :=
  { header :=
      { nspace := "Alexa.BrightnessController"
        hname := "SetBrightness"
        messageId := "m1"
        correlationToken := some "c1" }
    endpoint := some "d1" }

/-- A `TurnOn` directive addressed to `d1`. -/
def req5 : AlexaDirective :=
  { header :=
      { nspace := "Alexa.PowerController"
        hname := "TurnOn"
        messageId := "m1"
        correlationToken := some "c1" }
    endpoint := some "d1" }

/-- A device node configured with the custom topic `custom`. -/
def cfg10 : DeviceConfig :=
  { id := "d10", ntype := "alexa-iot-device", hub := "hub1", name := "Dev10",
    topic := some "custom" }

lemma resolveFold_isSome (hubId tok : String) :
    ∀ (reg : List DeviceConfig) (acc : Option DeviceConfig),
      (reg.foldl (resolveStep hubId tok) acc).isSome = true ↔
        (acc.isSome = true ∨ ∃ n ∈ reg,
          (n.ntype == "alexa-iot-device" && n.hub == hubId &&
            (tok == uniqueidOf n || n.endpointId == some tok || tok == n.id)) = true) := by
  intro reg
  induction reg with
  | nil => intro acc; simp
  | cons n rest ih =>
    intro acc
    rw [List.foldl_cons]
    rw [ih]
    constructor
    · rintro (hs | ⟨m, hm, hc⟩)
      · by_cases h : (n.ntype == "alexa-iot-device" && n.hub == hubId &&
            (tok == uniqueidOf n || n.endpointId == some tok || tok == n.id)) = true
        · exact Or.inr ⟨n, List.mem_cons_self n rest, h⟩
        · simp only [resolveStep, if_neg h] at hs
          exact Or.inl hs
      · exact Or.inr ⟨m, List.mem_cons_of_mem n hm, hc⟩
    · rintro (ha | ⟨m, hm, hc⟩)
      · by_cases h : (n.ntype == "alexa-iot-device" && n.hub == hubId &&
            (tok == uniqueidOf n || n.endpointId == some tok || tok == n.id)) = true
        · left
          simp only [resolveStep, if_pos h, Option.isSome_some]
        · left
          simpa only [resolveStep, if_neg h] using ha
      · rcases List.mem_cons.mp hm with rfl | hm'
        · left
          simp only [resolveStep, if_pos hc, Option.isSome_some]
        · by_cases h : (n.ntype == "alexa-iot-device" && n.hub == hubId &&
              (tok == uniqueidOf n || n.endpointId == some tok || tok == n.id)) = true
          · left
            simp only [resolveStep, if_pos h, Option.isSome_some]
          · exact Or.inr ⟨m, hm', hc⟩

/-- Claim C1 (counterexample): with a single registered device `d1`, the
numeric index token `"1"` does not resolve — the state PUT addressed to
`/api/:user/lights/1/state` returns 404 and delivers no event, contrary to
the claim that `str(d.index)` finds the device. -/
theorem c1_index_token_404 :
    resolveDevice reg1 "hub1" "1" = none ∧
    (huePutState reg1 "hub1" "1" { «on» := some true }).1.status = 404 ∧
    (huePutState reg1 "hub1" "1" { «on» := some true }).2 = [] :=
  ⟨rfl, rfl, rfl⟩

/-- Claim C1 (amended): device resolution of the state PUT accepts exactly
three token forms — the synthetic uniqueid, the raw `endpointId`, or the raw
device id of a bound device — and in particular not the 1-based numeric
index. -/
theorem c1_resolve_token_forms (reg : List DeviceConfig) (hubId tok : String) :
    (resolveDevice reg hubId tok).isSome = true ↔
      ∃ n ∈ reg,
        (n.ntype == "alexa-iot-device" && n.hub == hubId &&
          (tok == uniqueidOf n || n.endpointId == some tok || tok == n.id)) = true := by
  simpa [resolveDevice] using resolveFold_isSome hubId tok reg none

lemma objSet_eq_append (k : String) (v : HueLight) :
    ∀ (acc : List (String × HueLight)), k ∉ acc.map Prod.fst →
      objSet acc k v = acc ++ [(k, v)] := by
  intro acc
  induction acc with
  | nil => intro _; rfl
  | cons a rest ih =>
    intro h
    obtain ⟨k', v'⟩ := a
    simp only [List.map_cons, List.mem_cons] at h
    push_neg at h
    unfold objSet
    rw [if_neg (fun he => h.1 he.symm)]
    rw [ih h.2]
    simp

lemma genFold_keys (hubId now : String) :
    ∀ (reg : List DeviceConfig) (acc : List (String × HueLight)) (idx : ℕ),
      ((acc.map Prod.fst) ++ (boundDevices reg hubId).map uniqueidOf).Nodup →
      ((reg.foldl (genStep hubId now) (acc, idx)).1).map Prod.fst
        = acc.map Prod.fst ++ (boundDevices reg hubId).map uniqueidOf := by
  intro reg
  induction reg with
  | nil => intro acc idx _; simp [boundDevices]
  | cons n rest ih =>
    intro acc idx h
    rw [List.foldl_cons]
    by_cases hb : isBound hubId n = true
    · have hfilter : boundDevices (n :: rest) hubId = n :: boundDevices rest hubId := by
        simp [boundDevices, List.filter_cons, hb]
      rw [hfilter] at h ⊢
      have hkey : uniqueidOf n ∉ acc.map Prod.fst := by
        intro hmem
        rw [List.nodup_append] at h
        exact h.2.2 hmem (by simp)
      have hstep : genStep hubId now (acc, idx) n
          = (acc ++ [(uniqueidOf n, mkLight n now)], idx + 1) := by
        simp [genStep, hb, objSet_eq_append _ _ _ hkey]
      rw [hstep]
      have hnodup : ((acc ++ [(uniqueidOf n, mkLight n now)]).map Prod.fst ++
          (boundDevices rest hubId).map uniqueidOf).Nodup := by
        simpa [List.append_assoc] using h
      rw [ih (acc ++ [(uniqueidOf n, mkLight n now)]) (idx + 1) hnodup]
      simp
    · have hfilter : boundDevices (n :: rest) hubId = boundDevices rest hubId := by
        simp [boundDevices, List.filter_cons, hb]
      rw [hfilter] at h ⊢
      have hstep : genStep hubId now (acc, idx) n = (acc, idx) := by
        simp [genStep, hb]
      rw [hstep]
      exact ih acc idx h

/-- Claim C2 (counterexample): with one bound device of id `d1`, the
`/lights` object is keyed by the synthetic uniqueid `d1-00`, not by the
dense index string `"1"`. -/
theorem c2_keys_not_dense_indices :
    (generateDeviceList reg1 "hub1" "T0").map Prod.fst = ["d1-00"] ∧
    (["d1-00"] : List String) ≠ ["1"] :=
  ⟨rfl, by decide⟩

/-- Claim C2 (amended): `GET /api/:user/lights` responds 200 with an object
whose keys are exactly the bound devices' synthetic uniqueids in host
iteration order (deterministic for a fixed registry snapshot), provided
those uniqueids are pairwise distinct; the dense index counter is computed
but unused. -/
theorem c2_keys_are_uniqueids (reg : List DeviceConfig) (hubId now : String)
    (h : (((boundDevices reg hubId).map uniqueidOf)).Nodup) :
    (hueGetLights reg hubId now).status = 200 ∧
    (generateDeviceList reg hubId now).map Prod.fst
      = (boundDevices reg hubId).map uniqueidOf := by
  refine ⟨rfl, ?_⟩
  have := genFold_keys hubId now reg [] 1 (by simpa using h)
  simpa [generateDeviceList] using this

/-- Claim C2 (witness): the amended statement applied to the one-device
registry `reg1`. -/
theorem c2_keys_witness :
    (((boundDevices reg1 "hub1").map uniqueidOf)).Nodup ∧
    ((hueGetLights reg1 "hub1" "T0").status = 200 ∧
      (generateDeviceList reg1 "hub1" "T0").map Prod.fst
        = (boundDevices reg1 "hub1").map uniqueidOf) :=
  ⟨by decide, c2_keys_are_uniqueids reg1 "hub1" "T0" (by decide)⟩

/-- Claim C3 (code bug): a Hue PUT body `{"bri": 0}` addressed to the
resolvable device `d1` maps to a brightness payload of `0`, which is falsy,
so the source's `if (topic && payload)` guard rejects it: the handler
responds with the `type: 6` invalid-parameters error and delivers no event,
instead of the brightness event with payload `0` and the success shape that
the specification states. -/
theorem c3_bri_zero_rejected :
    huePutState reg1 "hub1" "d1" { bri := some 0 } =
      ({ status := 400,
         body := .hueError 6 "/lights/d1/state" "Invalid or missing parameters" },
       []) := by
  have h0 : jsRound 0 = 0 := by norm_num [jsRound]
  simp [huePutState, resolveDevice, resolveStep, hueStateToEvent, reg1, d1cfg,
    uniqueidOf, jsOrStr, h0, JsValue.truthy]

/-- Claim C4 (code bug): when directive processing throws — here a
`SetBrightness` directive to the registered device `d1` with no `payload`,
so that `directive.payload.brightness` raises a TypeError — the handler's
`catch` clause itself throws a ReferenceError (it reads `directive`, which
is scoped to the `try` block), and the exception escapes to the HTTP
framework instead of producing the 500 INTERNAL_ERROR response the claim
describes. -/
theorem c4_catch_rethrows :
    alexaPost reg1 "hub1" "T0" (some sbNoPayload) = .error .referenceError :=
  rfl

lemma mkContextProp_value (nspace : String) (p : JsValue) (now : String) :
    (mkContextProp nspace p now).value = p := by
  unfold mkContextProp
  split
  · rfl
  · split <;> rfl

lemma mkContextProp_unc (nspace : String) (p : JsValue) (now : String) :
    (mkContextProp nspace p now).uncertaintyInMilliseconds = 0 := by
  unfold mkContextProp
  split
  · rfl
  · split <;> rfl

/-- Claim C5: every 200 response of the `/alexa` handler that carries an
`Alexa.Response` body reports in `context.properties[0].value` exactly the
payload that was delivered to the device sink, with
`uncertaintyInMilliseconds = 0`. -/
theorem c5_response_value_eq_sink_payload (reg : List DeviceConfig)
    (hubId now : String) (req : Option AlexaDirective) (resp : HttpResponse)
    (events : List Event) (eid mid : String) (ctok : Option String)
    (prop : ContextProperty)
    (hok : alexaPost reg hubId now req = .ok (resp, events))
    (hbody : resp.body = RespBody.alexaResponse eid mid ctok prop) :
    (∃ t, events = [⟨t, prop.value⟩]) ∧ prop.uncertaintyInMilliseconds = 0 := by
  unfold alexaPost at hok
  cases htry : alexaTry reg hubId now req with
  | error e => rw [htry] at hok; cases hok
  | ok r =>
    rw [htry] at hok
    injection hok with hr
    subst hr
    unfold alexaTry at htry
    repeat' split at htry
    all_goals try cases htry
    all_goals simp at hbody
    all_goals
      (obtain ⟨-, -, -, hprop⟩ := hbody
       exact ⟨⟨_, by rw [← hprop, mkContextProp_value]⟩,
              by rw [← hprop, mkContextProp_unc]⟩)

/-- Claim C5 (witness): the theorem applied to a `TurnOn` directive for the
registered device `d1`: the delivered event payload `"ON"` equals the
reported context-property value. -/
theorem c5_witness :
    (∃ t, ([⟨"power", JsValue.jstr "ON"⟩] : List Event)
        = [⟨t, (mkContextProp "Alexa.PowerController" (JsValue.jstr "ON") "T0").value⟩]) ∧
    (mkContextProp "Alexa.PowerController" (JsValue.jstr "ON") "T0").uncertaintyInMilliseconds = 0 :=
  c5_response_value_eq_sink_payload reg1 "hub1" "T0" (some req5)
    { status := 200,
      body := .alexaResponse "d1" "m1" (some "c1")
        (mkContextProp "Alexa.PowerController" (JsValue.jstr "ON") "T0") }
    [⟨"power", JsValue.jstr "ON"⟩] "d1" "m1" (some "c1")
    (mkContextProp "Alexa.PowerController" (JsValue.jstr "ON") "T0") rfl rfl

/-- Claim C6 (counterexample): the body `{"bri": 300, "hue": 100, "sat": 200}`
(no `on`) delivers a brightness event — the `bri` branch is not conditioned
on `hue`/`sat` absence — and its payload `round(300/254*100) = 118` exceeds
100, so no clamping to `[0,100]` is applied either. -/
theorem c6_bri_beats_color_and_unclamped :
    (huePutState reg1 "hub1" "d1" body6).2
        = [⟨"brightness", JsValue.jnum ((118:ℤ) : ℚ)⟩] ∧
    ¬((118:ℤ) ≤ 100) := by
  constructor
  · have h118 : jsRound ((15000:ℚ) / 127) = 118 := by norm_num [jsRound]
    norm_num [huePutState, resolveDevice, resolveStep, hueStateToEvent, body6,
      reg1, d1cfg, uniqueidOf, jsOrStr, h118, JsValue.truthy]
    simp
  · decide

/-- Claim C6 (amended): whenever `on` is absent and `bri` is present, the
mapped event is `brightness` with payload `round(bri/254*100)` regardless of
`hue`/`sat`; no clamping is applied, and whenever `bri` lies in `[0,254]`
the payload lies in `[0,100]`. -/
theorem c6_bri_branch_unclamped (body : HueBody) (q : ℚ)
    (hon : body.«on» = none) (hbri : body.bri = some q) :
    hueStateToEvent body
      = some ("brightness", .jnum ((jsRound (q / 254 * 100) : ℤ) : ℚ)) ∧
    (0 ≤ q → q ≤ 254 →
      0 ≤ jsRound (q / 254 * 100) ∧ jsRound (q / 254 * 100) ≤ 100) := by
  constructor
  · unfold hueStateToEvent
    rw [hon, hbri]
  · intro h0 h254
    have hx0 : (0:ℚ) ≤ q / 254 * 100 :=
      mul_nonneg (div_nonneg h0 (by norm_num)) (by norm_num)
    have hx1 : q / 254 * 100 ≤ 100 := by
      have hq : q / 254 ≤ 1 := by
        rw [div_le_one (by norm_num : (0:ℚ) < 254)]
        exact h254
      calc q / 254 * 100 ≤ 1 * 100 := mul_le_mul_of_nonneg_right hq (by norm_num)
        _ = 100 := by norm_num
    constructor
    · unfold jsRound
      refine Int.le_floor.mpr ?_
      push_cast
      linarith
    · unfold jsRound
      calc ⌊q / 254 * 100 + 1/2⌋ ≤ ⌊(100:ℚ) + 1/2⌋ :=
            Int.floor_le_floor (by linarith)
        _ = 100 := by norm_num

/-- Claim C6 (witness): the amended statement applied to the body
`{"bri": 128}`. -/
theorem c6_witness :
    body6w.«on» = none ∧ body6w.bri = some 128 ∧
    (hueStateToEvent body6w
        = some ("brightness", .jnum ((jsRound ((128:ℚ) / 254 * 100) : ℤ) : ℚ)) ∧
     (0 ≤ (128:ℚ) → (128:ℚ) ≤ 254 →
        0 ≤ jsRound ((128:ℚ) / 254 * 100) ∧ jsRound ((128:ℚ) / 254 * 100) ≤ 100)) :=
  ⟨rfl, rfl, c6_bri_branch_unclamped body6w 128 rfl rfl⟩

/-- Claim C7 (counterexample): for the body `{"on": true, "bri": 128}`
addressed to the device `d1`, the success body carries a single entry keyed
by the mapped topic name `power` with the mapped payload `"ON"` — not an
entry per request key, keyed `on` with the request value `true`, as the
claim states. -/
theorem c7_success_keyed_by_topic :
    (huePutState reg1 "hub1" "d1" body7).1.body.successEntries
        = [("/lights/d1/state/power", JsValue.jstr "ON")] ∧
    ((huePutState reg1 "hub1" "d1" body7).1.body.successEntries).map Prod.fst
        ≠ ["/lights/d1/state/on"] := by
  refine ⟨rfl, ?_⟩
  decide

/-- Claim C7 (amended): on a successful state PUT the response is a
single-element success array whose one entry is keyed
`/lights/:token/state/:topic` — the mapped topic, not the original Hue key —
and carries the mapped event payload; exactly that payload is delivered. -/
theorem c7_single_topic_keyed_entry (reg : List DeviceConfig) (hubId tok : String)
    (body : HueBody) (dev : DeviceConfig) (t : String) (p : JsValue)
    (hres : resolveDevice reg hubId tok = some dev)
    (hmap : hueStateToEvent body = some (t, p))
    (hgate : (t != "" && p.truthy) = true) :
    huePutState reg hubId tok body =
      ({ status := 200,
         body := .hueSuccess [("/lights/" ++ tok ++ "/state/" ++ t, p)] },
       [⟨t, p⟩]) := by
  unfold huePutState
  rw [hres, hmap]
  simp [hgate]

/-- Claim C7 (witness): the amended statement applied to the body
`{"on": true, "bri": 128}` and device `d1`. -/
theorem c7_witness :
    resolveDevice reg1 "hub1" "d1" = some d1cfg ∧
    hueStateToEvent body7 = some ("power", JsValue.jstr "ON") ∧
    (("power" != "" && (JsValue.jstr "ON").truthy) = true) ∧
    huePutState reg1 "hub1" "d1" body7 =
      ({ status := 200,
         body := .hueSuccess
           [("/lights/" ++ "d1" ++ "/state/" ++ "power", JsValue.jstr "ON")] },
       [⟨"power", JsValue.jstr "ON"⟩]) :=
  ⟨rfl, rfl, rfl,
    c7_single_topic_keyed_entry reg1 "hub1" "d1" body7 d1cfg "power"
      (JsValue.jstr "ON") rfl rfl rfl⟩

/-- Claim C8 (code bug): a device named `<b>Lamp</b>` is discovered with its
`friendlyName` equal to the raw configured name, which still contains `<`:
the `/alexa` Discover branch performs no HTML sanitisation (the module
imports `sanitize-html` but never applies it there, unlike the sibling
`alexa-iot-hub.mjs` discovery callback, which strips all tags). -/
theorem c8_friendly_name_unsanitized :
    alexaPost reg8 "hub1" "T0" (some discover8) =
      .ok ({ status := 200,
             body := .discoverResponse "m1" (discoverEndpoints reg8 "hub1") }, []) ∧
    (discoverEndpoints reg8 "hub1").map AlexaEndpoint.friendlyName
        = ["<b>Lamp</b>"] ∧
    ("<b>Lamp</b>".data.contains '<') = true :=
  ⟨rfl, rfl, by decide⟩

/-- Claim C9 (counterexample): a brightness message whose payload is
`undefined` — which the hub genuinely forwards when an `AdjustBrightness`
directive's payload object lacks `brightnessDelta` — coerces via `Number`
to `NaN`, and the device node emits `NaN` unchanged: the emitted payload is
not within `[0,100]`, refuting the claim's "always within [0,100]". -/
theorem c9_nan_payload_escapes_range :
    ((deviceOnInput d1cfg true false ⟨"brightness", JsValue.jundefined⟩).sent.map
        DeviceOut.payload) = some JsValue.jnan ∧
    withinBrightnessRange JsValue.jnan = false :=
  ⟨rfl, rfl⟩

/-- Claim C9 (amended): for every brightness message with a numeric
payload, the device node emits `max(0, min(100, Number(payload)))`, which
lies in `[0,100]` — so a numeric `AdjustBrightness` delta forwarded
unclamped by the hub is clamped here, and a negative delta becomes `0`;
a non-numeric payload coerces to `NaN` and is emitted outside the range. -/
theorem c9_brightness_clamped (cfg : DeviceConfig) (targetOk : Bool) (q : ℚ) :
    ((deviceOnInput cfg true targetOk ⟨"brightness", .jnum q⟩).sent.map
        DeviceOut.payload) = some (.jnum (max 0 (min 100 q))) ∧
    0 ≤ max 0 (min 100 q) ∧ max 0 (min 100 q) ≤ 100 := by
  refine ⟨?_, le_max_left 0 _, max_le (by norm_num) (min_le_left 100 q)⟩
  simp [deviceOnInput, clampBrightness, toNum]

lemma jsOrStr_jsStrOpt (o : Option String) (ct d : String)
    (h : jsStrOpt o = some ct) : jsOrStr (some ct) d = ct := by
  cases o with
  | none => simp [jsStrOpt] at h
  | some s =>
    unfold jsStrOpt at h
    by_cases hs : s = ""
    · simp [hs] at h
    · simp [hs] at h
      subst h
      simp [jsOrStr, hs]

/-- Claim C10: for an input whose topic is none of `power`, `brightness`,
`color`, a device node without a custom topic sends nothing and forwards
nothing (it only warns); with a custom topic configured, the message is
sent with its payload unchanged and the topic overridden by the custom
topic. -/
theorem c10_unsupported_topic (cfg : DeviceConfig) (targetOk : Bool)
    (msg : DeviceMsg)
    (h : msg.topic ∉ (["power", "brightness", "color"] : List String)) :
    (jsStrOpt cfg.topic = none →
      deviceOnInput cfg true targetOk msg = ⟨none, none⟩) ∧
    (∀ ct, jsStrOpt cfg.topic = some ct →
      (deviceOnInput cfg true targetOk msg).sent
        = some ⟨ct, msg.payload, cfg.name⟩) := by
  simp only [List.mem_cons, List.not_mem_nil, or_false, not_or] at h
  obtain ⟨h1, h2, h3⟩ := h
  have b1 : (msg.topic == "power") = false := beq_eq_false_iff_ne.mpr h1
  have b2 : (msg.topic == "brightness") = false := beq_eq_false_iff_ne.mpr h2
  have b3 : (msg.topic == "color") = false := beq_eq_false_iff_ne.mpr h3
  constructor
  · intro hnone
    simp [deviceOnInput, b1, b2, b3, hnone]
  · intro ct hct
    simp [deviceOnInput, b1, b2, b3, hct,
      jsOrStr_jsStrOpt cfg.topic ct msg.topic hct]

/-- Claim C10 (witness): the theorem applied to a message with topic
`weird` and a node configured with custom topic `custom`. -/
theorem c10_witness :
    ("weird" ∉ (["power", "brightness", "color"] : List String)) ∧
    ((jsStrOpt cfg10.topic = none →
        deviceOnInput cfg10 true false ⟨"weird", .jstr "x"⟩ = ⟨none, none⟩) ∧
     (∀ ct, jsStrOpt cfg10.topic = some ct →
        (deviceOnInput cfg10 true false ⟨"weird", .jstr "x"⟩).sent
          = some ⟨ct, JsValue.jstr "x", "Dev10"⟩)) :=
  ⟨by decide, c10_unsupported_topic cfg10 false ⟨"weird", .jstr "x"⟩ (by decide)⟩
